import Mathlib

/-
Shallow embedding of the concurrent object-migration engine of
traPtitech/s3-backup-helper: the incremental backup variant embedded in
src/README.md (package main, lines 581-805) and the restore program in
src/restore/main.go, together with small-step models of the concurrency
collaborators (the weighted semaphore and the unsynchronized shared appends).
-/

namespace SBH

/-- Raw object bytes, a byte stream modelled as a list of byte values. -/
abbrev Bytes := List Nat

/-- Go error values, identified by their message. -/
abbrev Err := String

/-- Metadata of an S3 object as returned by GetObject and consulted by the
incremental backup variant (src/README.md lines 733-755): five optional
standard attributes plus the user-metadata map (a nil Go map is `none`). -/
structure ObjectMetadata where
  contentType : Option String
  contentEncoding : Option String
  contentDisposition : Option String
  contentLanguage : Option String
  cacheControl : Option String
  userMetadata : Option (List (String × String))
deriving DecidableEq

/-- Result of a successful s3Client.GetObject call: the one-shot body byte
stream plus the object metadata. -/
structure S3Object where
  body : Bytes
  meta : ObjectMetadata
deriving DecidableEq

/-- Attributes of an existing GCS object, from
gcsBucketClient.Object(key).Attrs (src/README.md line 706). Only the stored
content digest is consulted; it is kept here in the lowercase-hex form that
fmt.Sprintf with the x verb produces from the raw MD5 bytes. -/
structure GcsAttrs where
  md5hex : String
deriving DecidableEq

/-- Attribute fields of the GCS object writer (src/README.md lines 730-755).
Go string fields default to the empty string when the source attribute is
absent, and the user-metadata map stays nil when the source map is nil. -/
structure GcsMeta where
  contentType : String
  contentEncoding : String
  contentDisposition : String
  contentLanguage : String
  cacheControl : String
  metadata : Option (List (String × String))
deriving DecidableEq

/-- Metadata copy of src/README.md lines 732-755: each writer field is set
only when the source provides the attribute, and the user-metadata entries
are merged into a fresh map on the writer. -/
def gcsMetaOf (m : ObjectMetadata) : GcsMeta :=
  ⟨m.contentType.getD "", m.contentEncoding.getD "", m.contentDisposition.getD "",
   m.contentLanguage.getD "", m.cacheControl.getD "", m.userMetadata⟩

/-- The streaming Snappy codec, an external collaborator used as a black box
(github.com/golang/snappy): a compress function, a decompress function and
the codec law that decompression inverts compression. -/
structure Codec where
  compress : Bytes → Bytes
  decompress : Bytes → Bytes
  roundtrip : ∀ b, decompress (compress b) = b

/-- Trivial codec instance used only to evaluate the model at concrete
inputs. -/
def idCodec : Codec := ⟨id, id, fun _ => rfl⟩

/-- Concrete stand-in for the external MD5 collaborator, used only to
evaluate the model at concrete inputs: it distinguishes the empty byte
stream from a nonempty one. -/
def digestStub (b : Bytes) : String :=
  if b.isEmpty then "digest-of-empty" else "digest-of-nonempty"

/-- Observable actions of the transfer goroutines, in program order. -/
inductive Event
  | acquire
  | release
  | wgDone
  | getObj
  | attrsLookup
  | hashCopy
  | hashFlush
  | hashClose
  | newWriter
  | metaCopy
  | writeCopy
  | compFlush
  | sinkClose
  | compClose
deriving DecidableEq

/-- The outcome of one TransferTask. -/
inductive TransferOutcome
  | succeeded
  | skipped
  | failed (e : Err)
deriving DecidableEq

/-- The value a TransferOutcome puts on the errCh channel: nil for success
and for a skip, the error otherwise (src/README.md lines 699, 723, 772). -/
def sendOf : TransferOutcome → Option Err
  | .failed e => some e
  | _ => none

/-- Environment of one incremental-mode transfer goroutine (src/README.md
lines 692-773): the results that the storage collaborators return at each
call site of the goroutine. -/
structure TransferEnv where
  fullBackup : Bool
  getObject : Except Err S3Object
  gcsAttrs : Except Err GcsAttrs
  hashCopyErr : Option Err
  writeCopyErr : Option Err
  gcsCloseErr : Option Err

/-- Everything one run of the inner transfer goroutine produces: the errCh
sends in order, the resulting outcome, the destination object committed by a
successful sink close (content bytes and writer metadata), the number of
increments of the skippedObjects counter, and the goroutine event trace. -/
structure TransferResult where
  sends : List (Option Err)
  outcome : TransferOutcome
  written : Option (Bytes × GcsMeta)
  skippedInc : Nat
  innerEvents : List Event
deriving DecidableEq

/-- Write phase of the transfer goroutine (src/README.md lines 729-772):
create the GCS writer, copy the metadata, copy whatever remains of the
(possibly already consumed) S3 body through the snappy writer, flush the
snappy writer with its error discarded, close the GCS writer; the deferred
snappy Close runs after the function body, and after it any earlier deferred
hash-writer close (`post`). `pre` are the events that already happened. -/
def writePhase (codec : Codec) (env : TransferEnv) (meta : ObjectMetadata)
    (remaining : Bytes) (pre post : List Event) : TransferResult :=
  match env.writeCopyErr with
  | some e =>
      ⟨[some e], .failed e, none, 0,
        pre ++ [.newWriter, .metaCopy, .writeCopy, .compClose] ++ post⟩
  | none =>
      match env.gcsCloseErr with
      | some e =>
          ⟨[some e], .failed e, none, 0,
            pre ++ [.newWriter, .metaCopy, .writeCopy, .compFlush, .sinkClose, .compClose] ++ post⟩
      | none =>
          ⟨[none], .succeeded, some (codec.compress remaining, gcsMetaOf meta), 0,
            pre ++ [.newWriter, .metaCopy, .writeCopy, .compFlush, .sinkClose, .compClose] ++ post⟩

/-- Inner transfer goroutine of the incremental backup variant
(src/README.md lines 692-773). The S3 body is a one-shot stream: the hash
computation of the skip check consumes it entirely, so the write phase after
an unequal digest copies from the exhausted stream (the empty remainder).
`md5hex` is the external MD5 collaborator, producing the lowercase-hex
digest of its input, the same function GCS applies to the stored bytes. -/
def transferInner (codec : Codec) (md5hex : Bytes → String) (env : TransferEnv) : TransferResult :=
  match env.getObject with
  | .error e => ⟨[some e], .failed e, none, 0, [.getObj]⟩
  | .ok obj =>
      match env.fullBackup with
      | true => writePhase codec env obj.meta obj.body [.getObj] []
      | false =>
          match env.gcsAttrs with
          | .error _ =>
              writePhase codec env obj.meta obj.body [.getObj, .attrsLookup] []
          | .ok attrs =>
              match env.hashCopyErr with
              | some e =>
                  ⟨[some e], .failed e, none, 0,
                    [.getObj, .attrsLookup, .hashCopy, .hashClose]⟩
              | none =>
                  if attrs.md5hex = md5hex (codec.compress obj.body) then
                    ⟨[none], .skipped, none, 1,
                      [.getObj, .attrsLookup, .hashCopy, .hashFlush, .hashClose]⟩
                  else
                    writePhase codec env obj.meta []
                      [.getObj, .attrsLookup, .hashCopy, .hashFlush] [.hashClose]

/-- Outer per-object goroutine together with its dispatch (src/README.md
lines 680-779): the semaphore permit is acquired in the dispatch loop right
before the goroutine is launched; the goroutine waits for the single errCh
send and then its deferred wg.Done and semaphore Release run in LIFO order,
on every exit path. -/
def outerTask (codec : Codec) (md5hex : Bytes → String) (env : TransferEnv) : List Event :=
  [.acquire] ++ (transferInner codec md5hex env).innerEvents ++ [.wgDone, .release]

/-- Number of occurrences of one event in a trace. -/
def countEvent (a : Event) : List Event → Nat
  | [] => 0
  | e :: rest => (if e = a then 1 else 0) + countEvent a rest

/-- Whether an event occurs in a trace. -/
def containsEvent (b : Event) : List Event → Bool
  | [] => false
  | e :: rest => if e = b then true else containsEvent b rest

/-- Whether b occurs somewhere after the first occurrence of a. -/
def beforeIn (a b : Event) : List Event → Bool
  | [] => false
  | e :: rest => if e = a then containsEvent b rest else beforeIn a b rest

/-- Aggregate state of one backup batch: the totalObjects and skippedObjects
counters and the errs slice of src/README.md lines 646-662. -/
structure BatchState where
  totalObjects : Nat
  skippedObjects : Nat
  errs : List Err
deriving DecidableEq

/-- Batch state at the start of a run. -/
def initBatch : BatchState := ⟨0, 0, []⟩

/-- The error the outer goroutine records for one object, if any: the single
value received from errCh when it is non-nil (src/README.md lines 775-778). -/
def failOf (codec : Codec) (md5hex : Bytes → String) (env : TransferEnv) : Option Err :=
  match (transferInner codec md5hex env).sends.head? with
  | some (some e) => some e
  | _ => none

/-- Aggregation for one dispatched object (src/README.md lines 679-781):
totalObjects is incremented at dispatch, skippedObjects inside the goroutine
on a skip, and a non-nil received error is appended to errs. -/
def recordTask (codec : Codec) (md5hex : Bytes → String) (st : BatchState)
    (env : TransferEnv) : BatchState :=
  ⟨st.totalObjects + 1,
   st.skippedObjects + (transferInner codec md5hex env).skippedInc,
   st.errs ++ (failOf codec md5hex env).toList⟩

/-- The dispatch loop over the objects of one listing page, serialized in
dispatch order (src/README.md lines 679-781). -/
def runBatch (codec : Codec) (md5hex : Bytes → String) :
    List TransferEnv → BatchState → BatchState
  | [], st => st
  | env :: rest, st => runBatch codec md5hex rest (recordTask codec md5hex st env)

/-- Page loop of the incremental backup (src/README.md lines 665-784): a
NextPage error is log.Fatalf, terminating the process before any summary;
otherwise the page objects are dispatched and aggregated and the next page
is requested. Returns the final summary state, or none when the run died on
a listing error. -/
def backupRun (codec : Codec) (md5hex : Bytes → String) :
    List (Except Err (List TransferEnv)) → BatchState → Option BatchState
  | [], st => some st
  | .error _ :: _, _ => none
  | .ok objs :: rest, st => backupRun codec md5hex rest (runBatch codec md5hex objs st)

/-- One successfully listed GCS object in the restore loop, together with
the results its reader and its uploader return (src/restore/main.go lines
167-200). -/
structure RestoreObj where
  name : String
  reader : Except Err Bytes
  uploadErr : Option Err

/-- Aggregate state of one restore run: the totalObjects and totalError
counters of src/restore/main.go lines 151-153 and the objects uploaded to
the primary store. -/
structure RestoreState where
  totalObjects : Nat
  totalError : Nat
  uploaded : List (String × Bytes × ObjectMetadata)
deriving DecidableEq

/-- Restore state at the start of a run. -/
def initRestore : RestoreState := ⟨0, 0, []⟩

/-- Metadata an object restored by src/restore/main.go lines 189-195 ends up
with: the PutObjectInput sets only Bucket, Key and Body, so every metadata
field is left unset. -/
def emptyMeta : ObjectMetadata := ⟨none, none, none, none, none, none⟩

/-- Restore transfer of one archived object (src/restore/main.go lines
186-195): snappy-decompress the stored bytes and upload them with no
metadata set. -/
def restoreUpload (codec : Codec) (stored : Bytes) : Bytes × ObjectMetadata :=
  (codec.decompress stored, emptyMeta)

/-- Loop body for one successfully listed object (src/restore/main.go lines
167-200): count it, open the reader, decompress with snappy and upload; a
reader or upload failure is logged, counted and skipped with continue. -/
def restoreObj (codec : Codec) (st : RestoreState) (o : RestoreObj) : RestoreState :=
  match o.reader with
  | .error _ => ⟨st.totalObjects + 1, st.totalError + 1, st.uploaded⟩
  | .ok stored =>
      match o.uploadErr with
      | some _ => ⟨st.totalObjects + 1, st.totalError + 1, st.uploaded⟩
      | none =>
          ⟨st.totalObjects + 1, st.totalError,
            st.uploaded ++ [(o.name, restoreUpload codec stored)]⟩

/-- Listing loop of the restore (src/restore/main.go lines 157-201):
iterator.Done ends the loop; an error from Next is logged, counted and
skipped with continue, and the loop then reaches the final summary line. -/
def restoreLoop (codec : Codec) :
    List (Except Err RestoreObj) → RestoreState → RestoreState
  | [], st => st
  | .error _ :: rest, st =>
      restoreLoop codec rest ⟨st.totalObjects, st.totalError + 1, st.uploaded⟩
  | .ok o :: rest, st => restoreLoop codec rest (restoreObj codec st o)

/-- How many errors one listing entry contributes to totalError: a listing
error counts one, a listed object counts one when its reader or its upload
fails. -/
def entryErrs : Except Err RestoreObj → Nat
  | .error _ => 1
  | .ok o =>
      match o.reader with
      | .error _ => 1
      | .ok _ =>
          match o.uploadErr with
          | some _ => 1
          | none => 0

/-- HeadBucket of src/restore/main.go line 124: succeeds exactly when the
destination bucket exists. -/
def s3HeadBucket (destExists : Bool) : Except Err Unit :=
  match destExists with
  | true => .ok ()
  | false => .error "NotFound"

/-- CreateBucket of src/restore/main.go line 128: when it succeeds the
destination bucket exists afterwards. -/
def s3CreateBucket (createOk : Bool) : Except Err Unit :=
  match createOk with
  | true => .ok ()
  | false => .error "CreateFailed"

/-- Destination-bucket preparation of src/restore/main.go lines 124-134:
check the bucket with HeadBucket, create it when the check fails, abort with
log.Fatalf only when that creation fails. Returns whether the destination
bucket exists when the run proceeds, or none on abort. -/
def bucketPrep (destExists createOk : Bool) : Option Bool :=
  match s3HeadBucket destExists with
  | .ok _ => some destExists
  | .error _ =>
      match s3CreateBucket createOk with
      | .ok _ => some true
      | .error _ => none

/-- The restore main from the archive-bucket check through the final summary
line (src/restore/main.go lines 116-207): a failure at the archive-bucket
check or at destination-bucket creation is log.Fatalf (none); otherwise the
listing loop runs and always reaches the summary. The Bool in the result is
whether the destination bucket existed when the loop started. -/
def restoreMain (codec : Codec) (gcsBucketOk destExists createOk : Bool)
    (entries : List (Except Err RestoreObj)) : Option (Bool × RestoreState) :=
  match gcsBucketOk with
  | false => none
  | true =>
      match bucketPrep destExists createOk with
      | none => none
      | some ex => some (ex, restoreLoop codec entries initRestore)

/-- Operations on the weighted semaphore. -/
inductive SemOp
  | acquire
  | release
deriving DecidableEq

/-- Weighted-semaphore semantics of golang.org/x/sync/semaphore with
capacity k, for the weight-1 operations the program uses: Acquire proceeds
only when a permit is free (it blocks otherwise, so a blocked acquire
produces no step), Release frees a held permit. `semExec` runs a trace of
granted operations starting from `held` permits and returns the final holder
count; a trace no real run can produce is rejected with none. -/
def semExec (k : Nat) : Nat → List SemOp → Option Nat
  | held, [] => some held
  | held, .acquire :: rest =>
      if held < k then semExec k (held + 1) rest else none
  | held, .release :: rest =>
      if 0 < held then semExec k (held - 1) rest else none

/-- Semaphore protocol of one transfer task (src/README.md lines 682 and
688): one Acquire at dispatch and one deferred Release. A batch run is an
interleaving of these per-task traces. -/
def taskSemOps : List SemOp := [.acquire, .release]

/-- Shared-state picture of the unsynchronized `errs = append(errs, err)` at
src/README.md line 777 (the skippedObjects increment at line 722 has the
same shape): two failed transfer goroutines each read the shared slice and
write back their own appended copy, with no lock anywhere in the program.
r1 and r2 are the two goroutines' local views of the slice. -/
structure RaceState where
  errs : List Err
  r1 : List Err
  r2 : List Err
deriving DecidableEq

/-- Interleaved steps of the two racing appends. -/
inductive RaceOp
  | read1
  | read2
  | write1
  | write2
deriving DecidableEq

/-- One step of the unsynchronized append: a read takes a snapshot of the
shared slice, a write publishes the snapshot with the goroutine's own error
appended. -/
def raceStep (e1 e2 : Err) (st : RaceState) : RaceOp → RaceState
  | .read1 => ⟨st.errs, st.errs, st.r2⟩
  | .read2 => ⟨st.errs, st.r1, st.errs⟩
  | .write1 => ⟨st.r1 ++ [e1], st.r1, st.r2⟩
  | .write2 => ⟨st.r2 ++ [e2], st.r1, st.r2⟩

/-- Run one interleaving of the two racing appends. -/
def raceRun (e1 e2 : Err) (sched : List RaceOp) (st : RaceState) : RaceState :=
  sched.foldl (raceStep e1 e2) st

/-- Metadata instance used by the concrete round-trip evaluation. -/
def cexMeta : ObjectMetadata :=
  ⟨some "text/plain", none, none, none, none, some [("uploader", "traq")]⟩

/-- C1: evaluation of the code at the failing input. In incremental mode,
for a source object with body [1] whose destination attributes carry a
digest different from the digest of the compressed source, the code does
not re-read the source: the skip check has consumed the one-shot body, the
rewrite stores the compression of the empty remainder, and the new stored
digest does not match a recomputation over the compressed source bytes. -/
theorem C1_bug_eval :
    (transferInner idCodec digestStub
        ⟨false, .ok ⟨[1], emptyMeta⟩, .ok ⟨"stale-digest"⟩, none, none, none⟩).written
      = some (idCodec.compress [], gcsMetaOf emptyMeta)
    ∧ digestStub (idCodec.compress []) ≠ digestStub (idCodec.compress [1]) := by
  constructor
  · rfl
  · decide

/-- C2: counterexample. Back up an object carrying a content type and a
user-metadata key to a fresh destination and restore it: the content
round-trips byte-identically, but the restored object's metadata is the
empty metadata, not the original metadata — restore propagates nothing. -/
theorem C2_cex :
    (transferInner idCodec digestStub
        ⟨false, .ok ⟨[7, 8], cexMeta⟩, .error "NotExist", none, none, none⟩).written
      = some (idCodec.compress [7, 8], gcsMetaOf cexMeta)
    ∧ restoreUpload idCodec (idCodec.compress [7, 8]) = ([7, 8], emptyMeta)
    ∧ emptyMeta ≠ cexMeta := by
  refine ⟨rfl, rfl, ?_⟩
  decide

/-- C2 amended: for every object, backing up to a fresh destination (the
attribute lookup reports the object as missing) stores the compressed body
with the mapped writer metadata, and restoring yields byte-identical
content; but the restore sets no metadata at all — the restored metadata is
the empty metadata rather than the original. -/
theorem C2_amended (codec : Codec) (md5hex : Bytes → String) (b : Bytes)
    (m : ObjectMetadata) (e : Err) :
    (transferInner codec md5hex ⟨false, .ok ⟨b, m⟩, .error e, none, none, none⟩).written
      = some (codec.compress b, gcsMetaOf m)
    ∧ restoreUpload codec (codec.compress b) = (b, emptyMeta) := by
  constructor
  · rfl
  · simp [restoreUpload, codec.roundtrip]

/-- C6: counterexample. In the restore direction a listing failure does not
abort the run: with a single failing listing entry the run still reaches the
final summary line, reporting zero objects and one error — no non-zero
process exit and a summary is produced. -/
theorem C6_cex :
    restoreMain idCodec true true true [Except.error "listing failed"]
      = some (true, ⟨0, 1, []⟩) := by
  rfl

/-- C9: evaluation of the code at the failing interleaving. Two concurrent
failed transfers both execute the unsynchronized append to errs; when both
goroutines read the shared slice before either writes, the later write
overwrites the earlier one and a recorded error is lost: the final error
list holds one entry instead of two, while the serialized interleaving of
the same two appends holds both. -/
theorem C9_race_eval :
    (raceRun "read failed A" "read failed B"
        [.read1, .read2, .write1, .write2] ⟨[], [], []⟩).errs
      = ["read failed B"]
    ∧ (raceRun "read failed A" "read failed B"
        [.read1, .write1, .read2, .write2] ⟨[], [], []⟩).errs
      = ["read failed A", "read failed B"] := by
  constructor <;> rfl

/-- Helper: a valid semaphore trace keeps the holder count below capacity at
every state it passes through. -/
theorem semExec_le (k : Nat) :
    ∀ (ops : List SemOp) (held h : Nat), held ≤ k →
      semExec k held ops = some h → h ≤ k := by
  intro ops
  induction ops with
  | nil =>
      intro held h hle hrun
      simp only [semExec, Option.some.injEq] at hrun
      omega
  | cons op rest ih =>
      intro held h hle hrun
      cases op with
      | acquire =>
          simp only [semExec] at hrun
          by_cases hlt : held < k
          · rw [if_pos hlt] at hrun
            exact ih (held + 1) h hlt hrun
          · rw [if_neg hlt] at hrun
            exact absurd hrun (by simp)
      | release =>
          simp only [semExec] at hrun
          by_cases hpos : 0 < held
          · rw [if_pos hpos] at hrun
            exact ih (held - 1) h (by omega) hrun
          · rw [if_neg hpos] at hrun
            exact absurd hrun (by simp)

/-- C3: with a concurrency budget of k permits (k ≥ 1), every state a valid
run of the weighted semaphore can reach — in particular any interleaving of
the per-task acquire and deferred release of the dispatch loop — holds at
most k permits, so at no instant do more than k transfer tasks
simultaneously hold a permit and perform their storage I/O. -/
theorem C3_budget (k : Nat) (ops : List SemOp) (h : Nat) (hk : 1 ≤ k)
    (hrun : semExec k 0 ops = some h) : h ≤ k :=
  semExec_le k ops 0 h (Nat.zero_le k) hrun

/-- C3 witness: a concrete valid trace with budget 2, reaching two held
permits, stays within the budget. -/
theorem C3_budget_witness :
    1 ≤ 2
    ∧ semExec 2 0 [SemOp.acquire, SemOp.acquire, SemOp.release, SemOp.acquire] = some 2
    ∧ 2 ≤ 2 :=
  ⟨by decide, by decide,
    C3_budget 2 [SemOp.acquire, SemOp.acquire, SemOp.release, SemOp.acquire] 2
      (by decide) (by decide)⟩

/-- Helper: the write phase sends exactly the value determined by its
outcome on the errCh channel. -/
theorem writePhase_sends (codec : Codec) (env : TransferEnv)
    (meta : ObjectMetadata) (remaining : Bytes) (pre post : List Event) :
    (writePhase codec env meta remaining pre post).sends
      = [sendOf (writePhase codec env meta remaining pre post).outcome] := by
  rcases env with ⟨fb, go, ga, hce, wce, gce⟩
  cases wce with
  | some e => rfl
  | none => cases gce with
    | some e => rfl
    | none => rfl

/-- C4: on every exit path of the transfer goroutine — read failure, skip,
hash-copy failure, write-copy failure, close failure, success — exactly one
value is sent on the per-task errCh channel, namely the one determined by
the task's outcome: never zero sends and never two. -/
theorem C4_one_outcome (codec : Codec) (md5hex : Bytes → String)
    (env : TransferEnv) :
    (transferInner codec md5hex env).sends
      = [sendOf (transferInner codec md5hex env).outcome] := by
  rcases env with ⟨fb, go, ga, hce, wce, gce⟩
  cases go with
  | error e => rfl
  | ok obj =>
      cases fb with
      | true => exact writePhase_sends codec ⟨true, .ok obj, ga, hce, wce, gce⟩ obj.meta obj.body [.getObj] []
      | false =>
          cases ga with
          | error e2 =>
              exact writePhase_sends codec ⟨false, .ok obj, .error e2, hce, wce, gce⟩ obj.meta obj.body [.getObj, .attrsLookup] []
          | ok attrs =>
              cases hce with
              | some e3 => rfl
              | none =>
                  by_cases hdig : attrs.md5hex = md5hex (codec.compress obj.body)
                  · simp only [transferInner, if_pos hdig]
                    rfl
                  · simp only [transferInner, if_neg hdig]
                    exact writePhase_sends codec ⟨false, .ok obj, .ok attrs, none, wce, gce⟩ obj.meta []
                      [.getObj, .attrsLookup, .hashCopy, .hashFlush] [.hashClose]

/-- C5: on every exit path of a transfer task the per-task event trace
acquires one permit at dispatch and releases exactly one permit, and the
release is the final action of the task — after the deferred wg.Done, hence
after the task has completed. -/
theorem C5_release_once (codec : Codec) (md5hex : Bytes → String)
    (env : TransferEnv) :
    countEvent .release (outerTask codec md5hex env) = 1
    ∧ (outerTask codec md5hex env).getLast? = some .release
    ∧ countEvent .acquire (outerTask codec md5hex env) = 1 := by
  rcases env with ⟨fb, go, ga, hce, wce, gce⟩
  cases go with
  | error e => exact ⟨rfl, rfl, rfl⟩
  | ok obj =>
      cases fb with
      | true =>
          cases wce with
          | some e => exact ⟨rfl, rfl, rfl⟩
          | none => cases gce with
            | some e => exact ⟨rfl, rfl, rfl⟩
            | none => exact ⟨rfl, rfl, rfl⟩
      | false =>
          cases ga with
          | error e2 =>
              cases wce with
              | some e => exact ⟨rfl, rfl, rfl⟩
              | none => cases gce with
                | some e => exact ⟨rfl, rfl, rfl⟩
                | none => exact ⟨rfl, rfl, rfl⟩
          | ok attrs =>
              cases hce with
              | some e3 => exact ⟨rfl, rfl, rfl⟩
              | none =>
                  by_cases hdig : attrs.md5hex = md5hex (codec.compress obj.body)
                  · simp only [outerTask, transferInner, if_pos hdig]
                    exact ⟨rfl, rfl, rfl⟩
                  · simp only [outerTask, transferInner, if_neg hdig]
                    cases wce with
                    | some e => exact ⟨rfl, rfl, rfl⟩
                    | none => cases gce with
                      | some e => exact ⟨rfl, rfl, rfl⟩
                      | none => exact ⟨rfl, rfl, rfl⟩

/-- Helper: a listing-page error anywhere in the page sequence kills the
backup run before any summary. -/
theorem backupRun_fatal (codec : Codec) (md5hex : Bytes → String) (e : Err) :
    ∀ (pages : List (Except Err (List TransferEnv))) (st : BatchState),
      Except.error e ∈ pages → backupRun codec md5hex pages st = none := by
  intro pages
  induction pages with
  | nil =>
      intro st h
      exact absurd h (List.not_mem_nil _)
  | cons p rest ih =>
      intro st h
      cases p with
      | error e2 => rfl
      | ok objs =>
          rcases List.mem_cons.mp h with h1 | h2
          · exact Except.noConfusion h1
          · exact ih (runBatch codec md5hex objs st) h2

/-- Helper: the restore loop is total — it reaches the summary on every
input — and counts exactly one error for every failed listing entry, failed
reader and failed upload. -/
theorem restoreLoop_errors (codec : Codec) :
    ∀ (entries : List (Except Err RestoreObj)) (st : RestoreState),
      (restoreLoop codec entries st).totalError
        = st.totalError + (entries.map entryErrs).sum := by
  intro entries
  induction entries with
  | nil =>
      intro st
      simp [restoreLoop]
  | cons entry rest ih =>
      intro st
      cases entry with
      | error e =>
          rw [restoreLoop, ih]
          simp [entryErrs]
          omega
      | ok o =>
          rw [restoreLoop, ih]
          rcases o with ⟨name, reader, uploadErr⟩
          cases reader with
          | error e =>
              simp [restoreObj, entryErrs]
              omega
          | ok stored =>
              cases uploadErr with
              | some e =>
                  simp [restoreObj, entryErrs]
                  omega
              | none =>
                  simp [restoreObj, entryErrs]

/-- C6 amended: a listing failure is fatal only in the backup direction. A
NextPage error anywhere aborts the backup with no summary produced; in the
restore direction a failure of the listing iterator is logged and counted,
and the loop always continues to the final summary line. -/
theorem C6_amended (codec : Codec) (md5hex : Bytes → String)
    (pages : List (Except Err (List TransferEnv))) (st : BatchState) (e : Err)
    (hmem : Except.error e ∈ pages)
    (entries : List (Except Err RestoreObj)) (rst : RestoreState) :
    backupRun codec md5hex pages st = none
    ∧ (restoreLoop codec entries rst).totalError
        = rst.totalError + (entries.map entryErrs).sum :=
  ⟨backupRun_fatal codec md5hex e pages st hmem, restoreLoop_errors codec entries rst⟩

/-- C6 amended witness: a concrete backup run with one failing page dies
with no summary, while a concrete restore run with one failing listing
entry reaches the summary with the error counted. -/
theorem C6_amended_witness :
    Except.error "boom" ∈ ([Except.error "boom"] : List (Except Err (List TransferEnv)))
    ∧ (backupRun idCodec digestStub [Except.error "boom"] initBatch = none
       ∧ (restoreLoop idCodec [Except.error "x"] initRestore).totalError
           = initRestore.totalError + (([Except.error "x"] : List (Except Err RestoreObj)).map entryErrs).sum) :=
  ⟨List.mem_singleton.mpr rfl,
    C6_amended idCodec digestStub [Except.error "boom"] initBatch "boom"
      (List.mem_singleton.mpr rfl) [Except.error "x"] initRestore⟩

/-- C7: counterexample. On a concrete successful transfer the goroutine
trace is copy, compressor flush, destination close, compressor close: the
compressor Close is deferred and runs after the destination write stream is
closed, not before it, so the claimed close ordering does not hold. -/
theorem C7_cex :
    (transferInner idCodec digestStub
        ⟨true, .ok ⟨[1], emptyMeta⟩, .error "na", none, none, none⟩).innerEvents
      = [.getObj, .newWriter, .metaCopy, .writeCopy, .compFlush, .sinkClose, .compClose]
    ∧ beforeIn .compClose .sinkClose
        (transferInner idCodec digestStub
          ⟨true, .ok ⟨[1], emptyMeta⟩, .error "na", none, none, none⟩).innerEvents = false
    ∧ beforeIn .sinkClose .compClose
        (transferInner idCodec digestStub
          ⟨true, .ok ⟨[1], emptyMeta⟩, .error "na", none, none, none⟩).innerEvents = true :=
  ⟨rfl, rfl, rfl⟩

/-- C7 amended: on every transfer path that reaches the destination close,
the compressor is flushed (with its error discarded) before the destination
write stream is closed, and the compressor Close runs deferred after the
destination close, with its error never checked. -/
theorem C7_amended (codec : Codec) (md5hex : Bytes → String) (env : TransferEnv)
    (hsc : containsEvent .sinkClose (transferInner codec md5hex env).innerEvents = true) :
    beforeIn .compFlush .sinkClose (transferInner codec md5hex env).innerEvents = true
    ∧ beforeIn .sinkClose .compClose (transferInner codec md5hex env).innerEvents = true := by
  rcases env with ⟨fb, go, ga, hce, wce, gce⟩
  cases go with
  | error e => exact Bool.noConfusion hsc
  | ok obj =>
      cases fb with
      | true =>
          cases wce with
          | some e => exact Bool.noConfusion hsc
          | none => cases gce with
            | some e => exact ⟨rfl, rfl⟩
            | none => exact ⟨rfl, rfl⟩
      | false =>
          cases ga with
          | error e2 =>
              cases wce with
              | some e => exact Bool.noConfusion hsc
              | none => cases gce with
                | some e => exact ⟨rfl, rfl⟩
                | none => exact ⟨rfl, rfl⟩
          | ok attrs =>
              cases hce with
              | some e3 => exact Bool.noConfusion hsc
              | none =>
                  by_cases hdig : attrs.md5hex = md5hex (codec.compress obj.body)
                  · simp only [transferInner, if_pos hdig] at hsc
                    exact Bool.noConfusion hsc
                  · simp only [transferInner, if_neg hdig] at hsc ⊢
                    cases wce with
                    | some e => exact Bool.noConfusion hsc
                    | none => cases gce with
                      | some e => exact ⟨rfl, rfl⟩
                      | none => exact ⟨rfl, rfl⟩

/-- C7 amended witness: the ordering facts hold on the concrete successful
transfer. -/
theorem C7_amended_witness :
    containsEvent .sinkClose
        (transferInner idCodec digestStub
          ⟨true, .ok ⟨[1], emptyMeta⟩, .error "na", none, none, none⟩).innerEvents = true
    ∧ (beforeIn .compFlush .sinkClose
          (transferInner idCodec digestStub
            ⟨true, .ok ⟨[1], emptyMeta⟩, .error "na", none, none, none⟩).innerEvents = true
       ∧ beforeIn .sinkClose .compClose
          (transferInner idCodec digestStub
            ⟨true, .ok ⟨[1], emptyMeta⟩, .error "na", none, none, none⟩).innerEvents = true) :=
  ⟨rfl, C7_amended idCodec digestStub
    ⟨true, .ok ⟨[1], emptyMeta⟩, .error "na", none, none, none⟩ rfl⟩

/-- C8: counterexample. An attribute-lookup failure during the skip check is
not recorded: with the lookup failing and everything else succeeding, the
batch records no error for the object and the outcome is success, while the
claim says this error is recorded in the error list and counted. -/
theorem C8_cex :
    (runBatch idCodec digestStub
        [⟨false, .ok ⟨[1], emptyMeta⟩, .error "lookup failed", none, none, none⟩]
        initBatch).errs = []
    ∧ (transferInner idCodec digestStub
        ⟨false, .ok ⟨[1], emptyMeta⟩, .error "lookup failed", none, none, none⟩).outcome
      = .succeeded :=
  ⟨rfl, rfl⟩

/-- Helper: the dispatch loop counts every object, adds up the skip
increments, and appends exactly the errors of the failed transfers, in
dispatch order, never stopping early. -/
theorem runBatch_spec (codec : Codec) (md5hex : Bytes → String) :
    ∀ (envs : List TransferEnv) (st : BatchState),
      runBatch codec md5hex envs st
        = ⟨st.totalObjects + envs.length,
           st.skippedObjects
             + (envs.map (fun env => (transferInner codec md5hex env).skippedInc)).sum,
           st.errs ++ envs.filterMap (failOf codec md5hex)⟩ := by
  intro envs
  induction envs with
  | nil =>
      intro st
      rcases st with ⟨a, b, c⟩
      simp [runBatch]
  | cons env rest ih =>
      intro st
      rw [runBatch, ih]
      simp only [recordTask, List.map_cons, List.sum_cons, List.length_cons,
        BatchState.mk.injEq]
      refine ⟨by omega, by omega, ?_⟩
      cases hfa : failOf codec md5hex env with
      | none => simp [List.filterMap_cons, hfa]
      | some e => simp [List.filterMap_cons, hfa]

/-- C8 amended: read, copy and close failures are isolated to their object,
recorded in the error list and counted while the batch continues to the end;
but an attribute-lookup failure during the skip check is not recorded — the
transfer proceeds to the full write and only a failure of that write would
be recorded. -/
theorem C8_amended (codec : Codec) (md5hex : Bytes → String)
    (envs : List TransferEnv) (st : BatchState) :
    runBatch codec md5hex envs st
      = ⟨st.totalObjects + envs.length,
         st.skippedObjects
           + (envs.map (fun env => (transferInner codec md5hex env).skippedInc)).sum,
         st.errs ++ envs.filterMap (failOf codec md5hex)⟩
    ∧ ∀ (obj : S3Object) (e : Err),
        failOf codec md5hex ⟨false, .ok obj, .error e, none, none, none⟩ = none
        ∧ (transferInner codec md5hex ⟨false, .ok obj, .error e, none, none, none⟩).outcome
          = .succeeded :=
  ⟨runBatch_spec codec md5hex envs st, fun _ _ => ⟨rfl, rfl⟩⟩

/-- C10: whenever the restore run proceeds past the destination-bucket
stage, the destination bucket exists — HeadBucket succeeded or the bucket
was just created — and the bucket stage aborts exactly when the check fails
and the creation also fails. -/
theorem C10_bucket (codec : Codec) (gcsOk destExists createOk : Bool)
    (entries : List (Except Err RestoreObj)) (ex : Bool) (st : RestoreState)
    (h : restoreMain codec gcsOk destExists createOk entries = some (ex, st)) :
    ex = true
    ∧ (bucketPrep destExists createOk = none ↔ destExists = false ∧ createOk = false) := by
  cases gcsOk with
  | false => exact Option.noConfusion h
  | true =>
      cases destExists with
      | true =>
          exact ⟨(congrArg Prod.fst (Option.some.inj h)).symm, by cases createOk <;> decide⟩
      | false =>
          cases createOk with
          | true =>
              exact ⟨(congrArg Prod.fst (Option.some.inj h)).symm, by decide⟩
          | false => exact Option.noConfusion h

/-- C10 witness: with a missing destination bucket and a successful
creation, the run proceeds and the destination bucket exists. -/
theorem C10_bucket_witness :
    restoreMain idCodec true false true [] = some (true, initRestore)
    ∧ (true = true
       ∧ (bucketPrep false true = none ↔ false = false ∧ true = false)) :=
  ⟨rfl, C10_bucket idCodec true false true [] true initRestore rfl⟩

end SBH
